import Mathlib

/-!
Verification development for the geo-story-tours repository.

The Python source is shallowly embedded in Lean: floating point arithmetic is
modelled over the real numbers, dictionaries become structures, fallible code
returns Except, and the orchestrator pipeline becomes an explicit list of
persisted writes driven by the outcome of each stage call.
-/

namespace GeoStory

/-! ## GeoMath: haversine distance

Embeds `haversine_distance` from src/agents/curator/agent.py (kilometres,
Earth radius 6371) and `haversine_distance` / `RouteOptimizerAgent.calculate_distance`
from src/agents/optimizer/agent.py and src/agents/optimizer/src/main.py
(metres, Earth radius 6371000).  The trigonometric float operations are
modelled over the reals.
-/

/-- Python math.radians: degrees to radians. -/
noncomputable def radians (deg : ℝ) : ℝ := deg * (Real.pi / 180)

/-- Curator haversine_distance: great-circle distance in kilometres between
two decimal-degree points.  Direct transcription of the formula in
src/agents/curator/agent.py lines 23-46. -/
noncomputable def haversine_distance (lat1 lon1 lat2 lon2 : ℝ) : ℝ :=
  2 * Real.arcsin (Real.sqrt
      (Real.sin ((radians lat2 - radians lat1) / 2) ^ 2 +
        Real.cos (radians lat1) * Real.cos (radians lat2) *
          Real.sin ((radians lon2 - radians lon1) / 2) ^ 2)) * 6371

/-- A lat/lng pair, as the Python dicts with keys lat and lng. -/
structure Coordinates where
  lat : ℝ
  lng : ℝ

/-- Optimizer haversine: distance in metres between two coordinate dicts.
Direct transcription of the inner haversine_distance of calculate_route_tool
(src/agents/optimizer/agent.py lines 34-45) and of
RouteOptimizerAgent.calculate_distance (src/agents/optimizer/src/main.py
lines 43-66): same formula as the curator version, Earth radius 6371000. -/
noncomputable def calculate_distance (p1 p2 : Coordinates) : ℝ :=
  2 * Real.arcsin (Real.sqrt
      (Real.sin ((radians p2.lat - radians p1.lat) / 2) ^ 2 +
        Real.cos (radians p1.lat) * Real.cos (radians p2.lat) *
          Real.sin ((radians p2.lng - radians p1.lng) / 2) ^ 2)) * 6371000

theorem haversine_self (lat lon : ℝ) : haversine_distance lat lon lat lon = 0 := by
  unfold haversine_distance
  simp [sub_self, zero_div, Real.sin_zero, Real.sqrt_zero, Real.arcsin_zero]

theorem sin_sq_swap (x y : ℝ) :
    Real.sin ((x - y) / 2) ^ 2 = Real.sin ((y - x) / 2) ^ 2 := by
  rw [show (x - y) / 2 = -((y - x) / 2) by ring, Real.sin_neg]
  ring

theorem haversine_arg_swap (p q r s : ℝ) :
    Real.sin ((p - q) / 2) ^ 2 + Real.cos q * Real.cos p * Real.sin ((r - s) / 2) ^ 2 =
    Real.sin ((q - p) / 2) ^ 2 + Real.cos p * Real.cos q * Real.sin ((s - r) / 2) ^ 2 := by
  rw [sin_sq_swap p q, sin_sq_swap r s]
  ring

theorem haversine_symm (a b c d : ℝ) :
    haversine_distance a b c d = haversine_distance c d a b := by
  unfold haversine_distance
  rw [haversine_arg_swap (radians c) (radians a) (radians d) (radians b)]

theorem calculate_distance_self (p : Coordinates) : calculate_distance p p = 0 := by
  unfold calculate_distance
  simp [sub_self, zero_div, Real.sin_zero, Real.sqrt_zero, Real.arcsin_zero]

theorem calculate_distance_symm (p q : Coordinates) :
    calculate_distance p q = calculate_distance q p := by
  unfold calculate_distance
  rw [haversine_arg_swap (radians q.lat) (radians p.lat) (radians q.lng) (radians p.lng)]

/-- C9: for all coordinate pairs a and b, both distance functions of the
repository (the curator kilometre version and the optimizer metre version)
are symmetric, and the distance from any point to itself is 0. -/
theorem C9_distance_symm_self :
    ∀ (lat1 lon1 lat2 lon2 : ℝ) (p q : Coordinates),
      haversine_distance lat1 lon1 lat2 lon2 = haversine_distance lat2 lon2 lat1 lon1 ∧
      haversine_distance lat1 lon1 lat1 lon1 = 0 ∧
      calculate_distance p q = calculate_distance q p ∧
      calculate_distance p p = 0 :=
  fun lat1 lon1 lat2 lon2 p q =>
    ⟨haversine_symm lat1 lon1 lat2 lon2, haversine_self lat1 lon1,
      calculate_distance_symm p q, calculate_distance_self p⟩

/-- C8 counterexample: latitude 200 is outside the range [-90, 90], yet the
distance function does not produce any distinguishable error result.  The
call haversine_distance 200 0 200 0 returns the normally computed haversine
value 0, exactly the same output as the legitimate in-range call
haversine_distance 0 0 0 0.  The codomain of the source function is a plain
float and contains no error values at all, so the claim that out-of-range
input yields a defined error is false on the code. -/
theorem C8_counterexample :
    haversine_distance 200 0 200 0 = haversine_distance 0 0 0 0 ∧
    haversine_distance 200 0 200 0 = 0 ∧ (90 : ℝ) < 200 :=
  ⟨by rw [haversine_self, haversine_self], haversine_self 200 0, by norm_num⟩

theorem radians_add_360 (x : ℝ) : radians (x + 360) = radians x + 2 * Real.pi := by
  unfold radians
  ring

theorem sin_sq_sub_pi (x : ℝ) : Real.sin (x - Real.pi) ^ 2 = Real.sin x ^ 2 := by
  rw [Real.sin_sub, Real.cos_pi, Real.sin_pi]
  ring

/-- C8 amended: the distance functions perform no input validation at all.
Every input, in range or not, is fed to the same haversine formula: the
optimizer metre version agrees with 1000 times the curator kilometre version
on all inputs, and shifting a latitude or longitude by a full 360 degrees
(producing an out-of-range coordinate) leaves the computed distance
unchanged, so out-of-range input is silently computed, never rejected. -/
theorem C8_amended :
    ∀ lat1 lon1 lat2 lon2 : ℝ,
      calculate_distance ⟨lat1, lon1⟩ ⟨lat2, lon2⟩ =
        1000 * haversine_distance lat1 lon1 lat2 lon2 ∧
      haversine_distance (lat1 + 360) lon1 lat2 lon2 =
        haversine_distance lat1 lon1 lat2 lon2 ∧
      haversine_distance lat1 (lon1 + 360) lat2 lon2 =
        haversine_distance lat1 lon1 lat2 lon2 := by
  intro lat1 lon1 lat2 lon2
  refine ⟨?_, ?_, ?_⟩
  · unfold calculate_distance haversine_distance
    ring
  · unfold haversine_distance
    rw [radians_add_360,
      show (radians lat2 - (radians lat1 + 2 * Real.pi)) / 2 =
        (radians lat2 - radians lat1) / 2 - Real.pi by ring,
      sin_sq_sub_pi, Real.cos_add_two_pi]
  · unfold haversine_distance
    rw [radians_add_360,
      show (radians lon2 - (radians lon1 + 2 * Real.pi)) / 2 =
        (radians lon2 - radians lon1) / 2 - Real.pi by ring,
      sin_sq_sub_pi]

/-! ## Python rounding

Python round uses round-half-to-even.  round(x, 1) is modelled at one
decimal digit, round(x) to an integer. -/

/-- Python round(x): round half to even. -/
noncomputable def pyRound (x : ℝ) : ℤ :=
  if Int.fract x = 1 / 2 then 2 * round (x / 2) else round x

/-- Python round(x, 1): round to one decimal digit, half to even. -/
noncomputable def pyRound1 (x : ℝ) : ℝ := (pyRound (x * 10) : ℝ) / 10

/-- Python round(x, 2): round to two decimal digits, half to even. -/
noncomputable def pyRound2 (x : ℝ) : ℝ := (pyRound (x * 100) : ℝ) / 100

/-! ## RouteBuilder: nearest neighbour selection

The Python loop in calculate_route_tool (src/agents/optimizer/agent.py lines
47-72) and RouteOptimizerAgent.optimize_route (src/agents/optimizer/src/main.py
lines 79-109) repeatedly takes nearest = min(remaining, key=distance) and then
remaining.remove(nearest).  Python min returns the first element attaining the
minimal key, and remove deletes exactly the chosen element, so one step of the
loop is: pick the first key-minimal element and return it together with the
rest of the list in unchanged order.  selectMin is that step. -/

/-- One loop step: the first key-minimal element of the list together with
the remaining elements in their original order; none on the empty list. -/
noncomputable def selectMin {α : Type} (key : α → ℝ) : List α → Option (α × List α)
  | [] => none
  | a :: l =>
    match selectMin key l with
    | none => some (a, [])
    | some (b, rest) => if key a ≤ key b then some (a, l) else some (b, a :: rest)

theorem selectMin_nil_iff {α : Type} (key : α → ℝ) (l : List α) :
    selectMin key l = none ↔ l = [] := by
  cases l with
  | nil => simp [selectMin]
  | cons a l =>
    simp only [selectMin]
    cases h : selectMin key l with
    | none => simp
    | some p =>
      obtain ⟨b, rest⟩ := p
      by_cases hk : key a ≤ key b <;> simp [hk]

/-- Full characterisation of a selection step: the list splits as
pre ++ chosen :: suf, the rest is pre ++ suf, every element strictly before
the chosen one has strictly larger key (Python min keeps the first minimum),
and the chosen key is minimal over the whole list. -/
theorem selectMin_spec {α : Type} (key : α → ℝ) :
    ∀ (l : List α) (c : α) (rest : List α),
      selectMin key l = some (c, rest) →
      ∃ pre suf, l = pre ++ c :: suf ∧ rest = pre ++ suf ∧
        (∀ y ∈ pre, key c < key y) ∧ (∀ y ∈ l, key c ≤ key y) := by
  intro l
  induction l with
  | nil => intro c rest h; simp [selectMin] at h
  | cons a l ih =>
    intro c rest h
    simp only [selectMin] at h
    cases hl : selectMin key l with
    | none =>
      rw [hl] at h
      have hnil : l = [] := (selectMin_nil_iff key l).mp hl
      obtain ⟨rfl, rfl⟩ : a = c ∧ [] = rest := by
        simpa using h
      subst hnil
      exact ⟨[], [], rfl, rfl, by simp, by simp⟩
    | some p =>
      obtain ⟨b, r⟩ := p
      rw [hl] at h
      obtain ⟨pre', suf', hsplit, hrest', hpre', hmin'⟩ := ih b r hl
      dsimp only at h
      by_cases hk : key a ≤ key b
      · rw [if_pos hk] at h
        obtain ⟨rfl, rfl⟩ : a = c ∧ l = rest := by simpa using h
        refine ⟨[], l, rfl, rfl, by simp, ?_⟩
        intro y hy
        rcases List.mem_cons.mp hy with rfl | hy
        · exact le_refl _
        · exact le_trans hk (hmin' y hy)
      · rw [if_neg hk] at h
        obtain ⟨rfl, rfl⟩ : b = c ∧ a :: r = rest := by simpa using h
        push_neg at hk
        refine ⟨a :: pre', suf', by simp [hsplit], by simp [hrest'], ?_, ?_⟩
        · intro y hy
          rcases List.mem_cons.mp hy with rfl | hy
          · exact hk
          · exact hpre' y hy
        · intro y hy
          rcases List.mem_cons.mp hy with rfl | hy
          · exact le_of_lt hk
          · exact hmin' y hy

theorem selectMin_perm {α : Type} {key : α → ℝ} {l : List α} {c : α} {rest : List α}
    (h : selectMin key l = some (c, rest)) : l.Perm (c :: rest) := by
  obtain ⟨pre, suf, hsplit, hrest, -, -⟩ := selectMin_spec key l c rest h
  subst hsplit; subst hrest
  exact List.perm_middle

theorem selectMin_length {α : Type} {key : α → ℝ} {l : List α} {c : α} {rest : List α}
    (h : selectMin key l = some (c, rest)) : rest.length + 1 = l.length := by
  have := (selectMin_perm h).length_eq
  simpa [Nat.add_comm] using this.symm

theorem selectMin_sublist {α : Type} {key : α → ℝ} {l : List α} {c : α} {rest : List α}
    (h : selectMin key l = some (c, rest)) : List.Sublist rest l := by
  obtain ⟨pre, suf, hsplit, hrest, -, -⟩ := selectMin_spec key l c rest h
  subst hsplit; subst hrest
  exact List.Sublist.append_left (List.sublist_cons_self c suf) pre

/-! ## RouteBuilder: the nearest neighbour loop

A stop with valid coordinates, as consumed by the while loop of
calculate_route_tool once the coordinates dict has been read successfully. -/

/-- A tour stop dict with its coordinates present. -/
structure Stop where
  id : String
  name : String
  pos : Coordinates
  visit : ℝ

/-- The route_info dict attached to each emitted stop
(src/agents/optimizer/agent.py lines 64-68). -/
structure RouteInfo where
  distance_meters : ℝ
  walking_minutes : ℝ
  from_previous : String

/-- Distance key used by the loop: metres from the current position to a
stop. -/
noncomputable def stopDist (pos : Coordinates) (s : Stop) : ℝ :=
  calculate_distance pos s.pos

/-- The while loop of calculate_route_tool, with fuel equal to the length of
the remaining list: each iteration picks the first nearest stop, emits it
with distance and walking time (distance / 80, both rounded to one decimal)
from the previous position, removes it and moves the current position to it.
Exactly one element is removed per iteration, so fuel = length runs the loop
to completion. -/
noncomputable def nnRouteAux : Nat → Coordinates → String → List Stop →
    List (Stop × RouteInfo)
  | 0, _, _, _ => []
  | n + 1, pos, prev, l =>
    match selectMin (stopDist pos) l with
    | none => []
    | some (c, rest) =>
      (c, { distance_meters := pyRound1 (stopDist pos c),
            walking_minutes := pyRound1 (stopDist pos c / 80),
            from_previous := prev }) :: nnRouteAux n c.pos c.name rest

/-- calculate_route_tool route construction: current position starts at
start_location and from_previous starts as "start". -/
noncomputable def nnRoute (start : Coordinates) (stops : List Stop) :
    List (Stop × RouteInfo) :=
  nnRouteAux stops.length start "start" stops

/-- The sequence of loop states (current position, remaining list), one per
iteration of the while loop, for replaying the construction of the route. -/
noncomputable def nnStatesAux : Nat → Coordinates → List Stop →
    List (Coordinates × List Stop)
  | 0, _, _ => []
  | n + 1, pos, l =>
    match selectMin (stopDist pos) l with
    | none => []
    | some (c, rest) => (pos, l) :: nnStatesAux n c.pos rest

/-- Loop states of the route construction started at start. -/
noncomputable def nnStates (start : Coordinates) (stops : List Stop) :
    List (Coordinates × List Stop) :=
  nnStatesAux stops.length start stops

theorem nnRouteAux_perm :
    ∀ (n : Nat) (pos : Coordinates) (prev : String) (l : List Stop),
      l.length = n → ((nnRouteAux n pos prev l).map Prod.fst).Perm l := by
  intro n
  induction n with
  | zero =>
    intro pos prev l hl
    rw [List.length_eq_zero] at hl
    subst hl
    simp [nnRouteAux]
  | succ n ih =>
    intro pos prev l hl
    cases hsel : selectMin (stopDist pos) l with
    | none =>
      rw [selectMin_nil_iff] at hsel
      subst hsel
      simp at hl
    | some p =>
      obtain ⟨c, rest⟩ := p
      have hrl : rest.length = n := by
        have := selectMin_length hsel
        omega
      have htail := ih c.pos c.name rest hrl
      simp only [nnRouteAux, hsel, List.map_cons]
      exact (htail.cons c).trans (selectMin_perm hsel).symm

theorem nnRoute_perm (start : Coordinates) (stops : List Stop) :
    ((nnRoute start stops).map Prod.fst).Perm stops :=
  nnRouteAux_perm stops.length start "start" stops rfl

theorem nnRoute_length (start : Coordinates) (stops : List Stop) :
    (nnRoute start stops).length = stops.length := by
  have := (nnRoute_perm start stops).length_eq
  simpa using this

/-- C4: the route builder output is a permutation of its input stop list:
the emitted stops (first components, each carrying its attached route_info)
are a permutation of the input, the output has the same length, the emitted
identifier list is a permutation of the input identifier list, and the
output has duplicate identifiers exactly when the input does, hence no
duplicates and no omissions are introduced. -/
theorem C4_route_is_permutation (start : Coordinates) (stops : List Stop) :
    ((nnRoute start stops).map Prod.fst).Perm stops ∧
    (nnRoute start stops).length = stops.length ∧
    ((nnRoute start stops).map (fun p => p.1.id)).Perm (stops.map Stop.id) ∧
    ((stops.map Stop.id).Nodup ↔
      ((nnRoute start stops).map (fun p => p.1.id)).Nodup) := by
  have hperm := nnRoute_perm start stops
  have hids : ((nnRoute start stops).map (fun p => p.1.id)).Perm
      (stops.map Stop.id) := by
    have := hperm.map Stop.id
    simpa [List.map_map, Function.comp] using this
  exact ⟨hperm, nnRoute_length start stops, hids, (hids.nodup_iff).symm⟩

theorem nnAux_spec :
    ∀ (n : Nat) (pos : Coordinates) (prev : String) (l : List Stop),
      l.length = n → ∀ i, i < n →
      ∃ p rem c info,
        (nnStatesAux n pos l)[i]? = some (p, rem) ∧
        (nnRouteAux n pos prev l)[i]? = some (c, info) ∧
        List.Sublist rem l ∧
        c ∈ rem ∧
        (∀ y ∈ rem, stopDist p c ≤ stopDist p y) ∧
        (∃ pre suf, rem = pre ++ c :: suf ∧
          ∀ y ∈ pre, stopDist p c < stopDist p y) ∧
        info.distance_meters = pyRound1 (stopDist p c) ∧
        info.walking_minutes = pyRound1 (stopDist p c / 80) := by
  intro n
  induction n with
  | zero => intro pos prev l hl i hi; omega
  | succ n ih =>
    intro pos prev l hl i hi
    cases hsel : selectMin (stopDist pos) l with
    | none =>
      rw [selectMin_nil_iff] at hsel
      subst hsel
      simp at hl
    | some q =>
      obtain ⟨c0, rest⟩ := q
      obtain ⟨pre, suf, hsplit, hrest, hpre, hmin⟩ :=
        selectMin_spec (stopDist pos) l c0 rest hsel
      have hrl : rest.length = n := by
        have := selectMin_length hsel
        omega
      cases i with
      | zero =>
        refine ⟨pos, l, c0,
          { distance_meters := pyRound1 (stopDist pos c0),
            walking_minutes := pyRound1 (stopDist pos c0 / 80),
            from_previous := prev }, ?_, ?_, ?_, ?_, ?_, ?_, rfl, rfl⟩
        · simp [nnStatesAux, hsel]
        · simp [nnRouteAux, hsel]
        · exact List.Sublist.refl l
        · rw [hsplit]
          simp
        · exact hmin
        · exact ⟨pre, suf, hsplit, hpre⟩
      | succ j =>
        obtain ⟨p, rem, c, info, hst, hrt, hsub, hmem, hm, hfirst, hd, hw⟩ :=
          ih c0.pos c0.name rest hrl j (by omega)
        refine ⟨p, rem, c, info, ?_, ?_, ?_, hmem, hm, hfirst, hd, hw⟩
        · simp [nnStatesAux, hsel, hst]
        · simp [nnRouteAux, hsel, hrt]
        · exact hsub.trans (selectMin_sublist hsel)

/-- C5: replaying the construction of the route, at every step i the stop
chosen from the remaining list has haversine distance from the current
position less than or equal to the distance of every stop still remaining,
ties are broken in favour of the earliest stop in the original input order
(the remaining list is a sublist of the input, so its order is the input
order, and every stop strictly before the chosen one in it is strictly
farther), and the emitted route_info carries distance and walking time
(distance / 80), both rounded to one decimal, computed from the previous
position. -/
theorem C5_greedy_nearest (start : Coordinates) (stops : List Stop)
    (i : Nat) (hi : i < stops.length) :
    ∃ p rem c info,
      (nnStates start stops)[i]? = some (p, rem) ∧
      (nnRoute start stops)[i]? = some (c, info) ∧
      List.Sublist rem stops ∧
      c ∈ rem ∧
      (∀ y ∈ rem, stopDist p c ≤ stopDist p y) ∧
      (∃ pre suf, rem = pre ++ c :: suf ∧
        ∀ y ∈ pre, stopDist p c < stopDist p y) ∧
      info.distance_meters = pyRound1 (stopDist p c) ∧
      info.walking_minutes = pyRound1 (stopDist p c / 80) :=
  nnAux_spec stops.length start "start" stops rfl i hi

/-- Witness for C5 at a concrete input: a single stop at the origin, step 0. -/
theorem C5_greedy_nearest_witness :
    0 < ([⟨"a", "A", ⟨0, 0⟩, 5⟩] : List Stop).length ∧
    ∃ p rem c info,
      (nnStates ⟨1, 1⟩ [⟨"a", "A", ⟨0, 0⟩, 5⟩])[0]? = some (p, rem) ∧
      (nnRoute ⟨1, 1⟩ [⟨"a", "A", ⟨0, 0⟩, 5⟩])[0]? = some (c, info) ∧
      List.Sublist rem [⟨"a", "A", ⟨0, 0⟩, 5⟩] ∧
      c ∈ rem ∧
      (∀ y ∈ rem, stopDist p c ≤ stopDist p y) ∧
      (∃ pre suf, rem = pre ++ c :: suf ∧
        ∀ y ∈ pre, stopDist p c < stopDist p y) ∧
      info.distance_meters = pyRound1 (stopDist p c) ∧
      info.walking_minutes = pyRound1 (stopDist p c / 80) :=
  ⟨by simp, C5_greedy_nearest ⟨1, 1⟩ [⟨"a", "A", ⟨0, 0⟩, 5⟩] 0 (by simp)⟩

/-! ## calculate_route_tool public interface

The tool body (src/agents/optimizer/agent.py lines 33-90) is wrapped in
try/except: any exception is caught and turned into the JSON object
with an "error" key.  The only exception the pure computation can raise is
the KeyError from reading lat/lng out of a missing or empty coordinates
dict (loc.get("coordinates", {}) followed by point["lat"] inside the
haversine helper); this is modelled by stops carrying optional coordinates
and an Except value for the body. -/

/-- JSON values, the shape of the string produced by json.dumps. -/
inductive Json where
  | str (s : String)
  | num (x : ℝ)
  | bool (b : Bool)
  | null
  | arr (elems : List Json)
  | obj (fields : List (String × Json))

/-- An input location dict as received by calculate_route_tool: coordinates
and average_visit_minutes may be absent. -/
structure StopIn where
  id : String
  name : String
  coordinates : Option Coordinates
  visitMinutes : Option ℝ

/-- Reading one input dict into a loop stop: a missing coordinates dict
makes the haversine helper raise KeyError on the lat key; an absent
average_visit_minutes defaults to 5 (loc.get, line 76). -/
def StopIn.toStop (s : StopIn) : Except String Stop :=
  match s.coordinates with
  | none => .error "KeyError: lat"
  | some c => .ok ⟨s.id, s.name, c, s.visitMinutes.getD 5⟩

/-- Reading the whole input list, failing on the first stop with missing
coordinates. -/
def toStops : List StopIn → Except String (List Stop)
  | [] => .ok []
  | s :: l =>
    match s.toStop with
    | .error e => .error e
    | .ok st =>
      match toStops l with
      | .error e => .error e
      | .ok sts => .ok (st :: sts)

/-- Serialisation of an emitted stop with its route_info dict. -/
noncomputable def stopJson (p : Stop × RouteInfo) : Json :=
  .obj [("id", .str p.1.id), ("name", .str p.1.name),
    ("coordinates", .obj [("lat", .num p.1.pos.lat), ("lng", .num p.1.pos.lng)]),
    ("average_visit_minutes", .num p.1.visit),
    ("route_info", .obj [("distance_meters", .num p.2.distance_meters),
      ("walking_minutes", .num p.2.walking_minutes),
      ("from_previous", .str p.2.from_previous)])]

/-- The duration_info totals (lines 74-84): total walking sums the rounded
per-leg walking minutes, total story sums the visit minutes, and each total
is rounded to an integer. -/
noncomputable def durationJson (route : List (Stop × RouteInfo)) : Json :=
  .obj [("walking_minutes", .num (pyRound ((route.map (fun p => p.2.walking_minutes)).sum) : ℤ)),
    ("story_minutes", .num (pyRound ((route.map (fun p => p.1.visit)).sum) : ℤ)),
    ("total_minutes", .num (pyRound ((route.map (fun p => p.2.walking_minutes)).sum +
      (route.map (fun p => p.1.visit)).sum) : ℤ))]

/-- calculate_route_tool at its public boundary: run the nearest neighbour
computation; on success return the result object, on an internal exception
return the object with the single "error" key (lines 78-90). -/
noncomputable def calculate_route_tool (locations : List StopIn)
    (start : Coordinates) : Json :=
  match toStops locations with
  | .error e => .obj [("error", .str e)]
  | .ok stops =>
    .obj [("optimized_locations", .arr ((nnRoute start stops).map stopJson)),
      ("duration_info", durationJson (nnRoute start stops))]

/-- Whether a JSON value is an object carrying the given key. -/
def Json.hasKey (j : Json) (k : String) : Bool :=
  match j with
  | .obj fields => fields.any (fun f => f.1 == k)
  | _ => false

/-- Whether a JSON value is an object. -/
def Json.isObj : Json → Bool
  | .obj _ => true
  | _ => false

/-- C10: the route calculation tool is total at its public interface.  For
every input, including stops with missing coordinates, it returns a JSON
value (the shallow embedding is a total function into Json, mirroring the
try/except wrapper that converts every internal exception into a return
value): the result is always a JSON object, it carries either the "error"
key alone or the optimized route keys, and the "error" key appears exactly
when the internal computation fails. -/
theorem C10_total_json_interface (locations : List StopIn) (start : Coordinates) :
    (calculate_route_tool locations start).isObj = true ∧
    (((calculate_route_tool locations start).hasKey "error" = true ∧
        (calculate_route_tool locations start).hasKey "optimized_locations" = false) ∨
      ((calculate_route_tool locations start).hasKey "optimized_locations" = true ∧
        (calculate_route_tool locations start).hasKey "duration_info" = true ∧
        (calculate_route_tool locations start).hasKey "error" = false)) ∧
    ((calculate_route_tool locations start).hasKey "error" = true ↔
      ∃ e, toStops locations = .error e) := by
  cases h : toStops locations with
  | error e =>
    refine ⟨?_, Or.inl ⟨?_, ?_⟩, ?_⟩ <;>
      simp [calculate_route_tool, h, Json.isObj, Json.hasKey]
  | ok stops =>
    refine ⟨?_, Or.inr ⟨?_, ?_, ?_⟩, ?_⟩ <;>
      simp [calculate_route_tool, h, Json.isObj, Json.hasKey]

/-! ## LocationSelector: query_locations_tool

Embeds the pure part of query_locations_tool
(src/agents/curator/agent.py lines 69-124): the catalog read from Firestore
becomes an input list, the per-element diversity draw of
random.uniform(0.8, 1.2) becomes an explicit jitter argument indexed by the
position of the element in the matching list (CPython list.sort computes the
keys once, in list order), and list.sort(key=..., reverse=True) is the
stable descending sort by key. -/

/-- A catalog location document. -/
structure CatLoc where
  id : String
  name : String
  categories : List String
  coordinates : Option Coordinates

/-- A matching location together with its distance_km annotation (absent
when no center was given). -/
structure MatchedLoc where
  loc : CatLoc
  distanceKm : Option ℝ

/-- The interest filter (line 80): at least one interest occurs among the
location categories. -/
def matchesInterests (interests : List String) (loc : CatLoc) : Bool :=
  interests.any (fun i => loc.categories.contains i)

/-- One iteration of the matching loop (lines 74-102): keep a location when
it matches the interests and, if a center is given, has coordinates within
the radius, annotating it with the rounded distance. -/
noncomputable def matchLoc (interests : List String) (center : Option Coordinates)
    (maxRadiusKm : ℝ) (loc : CatLoc) : Option MatchedLoc :=
  if matchesInterests interests loc then
    match center with
    | none => some ⟨loc, none⟩
    | some ctr =>
      match loc.coordinates with
      | none => none
      | some c =>
        if haversine_distance ctr.lat ctr.lng c.lat c.lng > maxRadiusKm then none
        else some ⟨loc, some (pyRound2 (haversine_distance ctr.lat ctr.lng c.lat c.lng))⟩
  else none

/-- The matching list, in catalog order. -/
noncomputable def matchingLocations (catalog : List CatLoc) (interests : List String)
    (center : Option Coordinates) (maxRadiusKm : ℝ) : List MatchedLoc :=
  catalog.filterMap (matchLoc interests center maxRadiusKm)

/-- relevance_score (lines 105-119): base score sums 2 per category in the
interests and 1 otherwise, a distance penalty 1 / (1 + 0.2 d) applies only
when a positive distance is recorded, and the whole is multiplied by the
diversity draw. -/
noncomputable def relevance_score (interests : List String) (jit : ℝ)
    (m : MatchedLoc) : ℝ :=
  ((m.loc.categories.map (fun cat => if interests.contains cat then (2 : ℝ) else 1)).sum) *
    (match m.distanceKm with
      | none => 1
      | some d => if 0 < d then 1 / (1 + d * 0.2) else 1) * jit

/-- The key computation of matching.sort: one key per element, in list
order, each consuming one diversity draw. -/
noncomputable def scoredList (interests : List String) (jitter : Nat → ℝ)
    (ms : List MatchedLoc) : List (ℝ × MatchedLoc) :=
  ms.enum.map (fun q => (relevance_score interests (jitter q.1) q.2, q.2))

/-- Stable descending insertion: an element is placed before the first
element whose key is less than or equal to its own, so equal keys keep
their original order, as in the stable CPython sort with reverse=True. -/
noncomputable def insertDesc (x : ℝ × MatchedLoc) :
    List (ℝ × MatchedLoc) → List (ℝ × MatchedLoc)
  | [] => [x]
  | y :: l => if y.1 ≤ x.1 then x :: y :: l else y :: insertDesc x l

/-- Stable descending sort by key. -/
noncomputable def sortDesc : List (ℝ × MatchedLoc) → List (ℝ × MatchedLoc)
  | [] => []
  | x :: l => insertDesc x (sortDesc l)

/-- query_locations_tool: match, score with diversity draws, sort
descending, and take the first max_locations (line 122). -/
noncomputable def query_locations_tool (catalog : List CatLoc)
    (interests : List String) (center : Option Coordinates) (maxRadiusKm : ℝ)
    (maxLocations : Nat) (jitter : Nat → ℝ) : List MatchedLoc :=
  ((sortDesc (scoredList interests jitter
      (matchingLocations catalog interests center maxRadiusKm))).map Prod.snd).take
    maxLocations

theorem insertDesc_perm (x : ℝ × MatchedLoc) (l : List (ℝ × MatchedLoc)) :
    (insertDesc x l).Perm (x :: l) := by
  induction l with
  | nil => simp [insertDesc]
  | cons y l ih =>
    simp only [insertDesc]
    by_cases h : y.1 ≤ x.1
    · rw [if_pos h]
    · rw [if_neg h]
      exact (ih.cons y).trans (List.Perm.swap x y l)

theorem sortDesc_perm (l : List (ℝ × MatchedLoc)) : (sortDesc l).Perm l := by
  induction l with
  | nil => simp [sortDesc]
  | cons x l ih =>
    exact (insertDesc_perm x (sortDesc l)).trans (ih.cons x)

theorem scoredList_map_snd (interests : List String) (jitter : Nat → ℝ)
    (ms : List MatchedLoc) :
    (scoredList interests jitter ms).map Prod.snd = ms := by
  simp only [scoredList, List.map_map]
  have : (Prod.snd ∘ fun q : Nat × MatchedLoc =>
      (relevance_score interests (jitter q.1) q.2, q.2)) = Prod.snd := by
    funext q
    rfl
  rw [this, List.enum_map_snd]

theorem matchLoc_some {interests : List String} {center : Option Coordinates}
    {maxRadiusKm : ℝ} {a : CatLoc} {m : MatchedLoc}
    (h : matchLoc interests center maxRadiusKm a = some m) :
    m.loc = a ∧ matchesInterests interests a = true := by
  unfold matchLoc at h
  by_cases hi : matchesInterests interests a
  · rw [if_pos hi] at h
    refine ⟨?_, hi⟩
    cases center with
    | none => simp at h; rw [← h]
    | some ctr =>
      cases hc : a.coordinates with
      | none => rw [hc] at h; simp at h
      | some c =>
        rw [hc] at h
        dsimp only at h
        by_cases hr : haversine_distance ctr.lat ctr.lng c.lat c.lng > maxRadiusKm
        · rw [if_pos hr] at h; simp at h
        · rw [if_neg hr] at h
          injection h with h2
          rw [← h2]
  · rw [if_neg hi] at h
    simp at h

theorem mem_matching_interests {catalog : List CatLoc} {interests : List String}
    {center : Option Coordinates} {maxRadiusKm : ℝ} {m : MatchedLoc}
    (h : m ∈ matchingLocations catalog interests center maxRadiusKm) :
    matchesInterests interests m.loc = true := by
  obtain ⟨a, _, hf⟩ := List.mem_filterMap.mp h
  obtain ⟨hl, hm⟩ := matchLoc_some hf
  rw [hl]
  exact hm

theorem query_mem_matching {catalog : List CatLoc} {interests : List String}
    {center : Option Coordinates} {maxRadiusKm : ℝ} {maxLocations : Nat}
    {jitter : Nat → ℝ} {m : MatchedLoc}
    (h : m ∈ query_locations_tool catalog interests center maxRadiusKm
      maxLocations jitter) :
    m ∈ matchingLocations catalog interests center maxRadiusKm := by
  have h1 := List.mem_of_mem_take h
  obtain ⟨x, hx, rfl⟩ := List.mem_map.mp h1
  have hx2 := (sortDesc_perm _).mem_iff.mp hx
  have : x.2 ∈ (scoredList interests jitter
      (matchingLocations catalog interests center maxRadiusKm)).map Prod.snd :=
    List.mem_map_of_mem Prod.snd hx2
  rwa [scoredList_map_snd] at this

/-- C6: for every catalog, interest list, center, radius, bound and sequence
of diversity draws, the selector returns at most maxLocations locations, and
every returned location has at least one category tag that is a member of
the interest list. -/
theorem C6_selector_bound_and_tags (catalog : List CatLoc)
    (interests : List String) (center : Option Coordinates) (maxRadiusKm : ℝ)
    (maxLocations : Nat) (jitter : Nat → ℝ) :
    (query_locations_tool catalog interests center maxRadiusKm maxLocations
        jitter).length ≤ maxLocations ∧
    (query_locations_tool catalog interests center maxRadiusKm maxLocations
        jitter).all
      (fun m => m.loc.categories.any (fun cat => interests.contains cat)) = true := by
  constructor
  · exact List.length_take_le maxLocations _
  · rw [List.all_eq_true]
    intro m hm
    have := mem_matching_interests (query_mem_matching hm)
    rw [matchesInterests, List.any_eq_true] at this
    obtain ⟨i, hi, hc⟩ := this
    rw [List.any_eq_true]
    refine ⟨i, ?_, ?_⟩
    · exact List.mem_of_elem_eq_true hc
    · exact List.elem_eq_true_of_mem hi

/-- A catalog location tagged history, identifier a. -/
def locHistoryA : CatLoc := ⟨"a", "A", ["history"], none⟩

/-- A catalog location tagged history, identifier b. -/
def locHistoryB : CatLoc := ⟨"b", "B", ["history"], none⟩

/-- One possible sequence of diversity draws of the global RNG: every value
lies strictly inside the range of random.uniform(0.8, 1.2). -/
noncomputable def jitterA : Nat → ℝ := fun i => if i = 0 then 0.9 else 1.1

/-- Another possible sequence of diversity draws of the global RNG: the same
two values in the opposite order, again strictly inside the range of
random.uniform(0.8, 1.2). -/
noncomputable def jitterB : Nat → ℝ := fun i => if i = 0 then 1.1 else 0.9

/-- C7 counterexample: the selector is not a deterministic function of its
declared inputs.  Each invocation draws fresh diversity factors from the
global random module (random.uniform(0.8, 1.2) inside relevance_score), so
two invocations with the identical catalog, interests, center, radius and
maxResults can observe different draws and return different locations: with
the same two-location catalog, draws of 0.9 then 1.1 select location b
while draws of 1.1 then 0.9 select location a.  Both draw sequences take
every value strictly between 0.8 and 1.2, so each is a sequence the call
random.uniform(0.8, 1.2) can actually produce. -/
theorem C7_counterexample :
    (∀ i, (0.8 : ℝ) < jitterA i ∧ jitterA i < 1.2) ∧
    (∀ i, (0.8 : ℝ) < jitterB i ∧ jitterB i < 1.2) ∧
    query_locations_tool [locHistoryA, locHistoryB] ["history"] none 5 1 jitterA ≠
    query_locations_tool [locHistoryA, locHistoryB] ["history"] none 5 1 jitterB := by
  refine ⟨?_, ?_, ?_⟩
  · intro i
    unfold jitterA
    by_cases hi : i = 0 <;> simp [hi] <;> norm_num
  · intro i
    unfold jitterB
    by_cases hi : i = 0 <;> simp [hi] <;> norm_num
  have hm : matchingLocations [locHistoryA, locHistoryB] ["history"] none 5 =
      [⟨locHistoryA, none⟩, ⟨locHistoryB, none⟩] := by
    simp [matchingLocations, matchLoc, matchesInterests, locHistoryA, locHistoryB]
  have hA : query_locations_tool [locHistoryA, locHistoryB] ["history"] none 5 1
      jitterA = [⟨locHistoryB, none⟩] := by
    rw [query_locations_tool, hm]
    norm_num [scoredList, relevance_score, sortDesc, insertDesc, jitterA,
      locHistoryA, locHistoryB, List.enum, List.enumFrom]
  have hB : query_locations_tool [locHistoryA, locHistoryB] ["history"] none 5 1
      jitterB = [⟨locHistoryA, none⟩] := by
    rw [query_locations_tool, hm]
    norm_num [scoredList, relevance_score, sortDesc, insertDesc, jitterB,
      locHistoryA, locHistoryB, List.enum, List.enumFrom]
  rw [hA, hB]
  simp [locHistoryA, locHistoryB]

/-- C7 amended: the selector is deterministic only relative to the diversity
draws of the global RNG, which are a hidden input: two invocations with
identical catalog contents, interests, center coordinates, radius,
maxResults and identical diversity draws return the same locations in the
same order, and every returned location comes from the deterministic
matching stage, which does not consume the RNG at all. -/
theorem C7_amended (catalog : List CatLoc) (interests : List String)
    (center : Option Coordinates) (maxRadiusKm : ℝ) (maxLocations : Nat)
    (j1 j2 : Nat → ℝ) (h : ∀ i, j1 i = j2 i) :
    query_locations_tool catalog interests center maxRadiusKm maxLocations j1 =
      query_locations_tool catalog interests center maxRadiusKm maxLocations j2 ∧
    ∀ m ∈ query_locations_tool catalog interests center maxRadiusKm maxLocations j1,
      m ∈ matchingLocations catalog interests center maxRadiusKm := by
  have hj : j1 = j2 := funext h
  subst hj
  exact ⟨rfl, fun m hm => query_mem_matching hm⟩

/-- Witness for C7 amended at a concrete input. -/
theorem C7_amended_witness :
    (∀ i : Nat, jitterA i = jitterA i) ∧
    (query_locations_tool [locHistoryA] ["history"] none 5 8 jitterA =
      query_locations_tool [locHistoryA] ["history"] none 5 8 jitterA ∧
    ∀ m ∈ query_locations_tool [locHistoryA] ["history"] none 5 8 jitterA,
      m ∈ matchingLocations [locHistoryA] ["history"] none 5) :=
  ⟨fun _ => rfl,
    C7_amended [locHistoryA] ["history"] none 5 8 jitterA jitterA fun _ => rfl⟩

/-! ## PipelineOrchestrator: process_tour_async

Embeds the job lifecycle of src/agents/orchestrator/main.py.
create_tour_async (lines 544-587) creates the job record with status queued
and progress 0 and hands off to the background task process_tour_async
(lines 271-542).  The body is one try block that, in order: writes the
selection status (fetching_locations when explicit location ids were given,
curator_running otherwise, both progress 25), performs the selection step,
creates the tour record, then for each of optimizer, storyteller, moderator
and voice synthesis writes the running status (progress 50, 75, 90, 95),
awaits the stage exactly once, and merges the stage response into the tour
record; after all stages it writes status completed with progress 100.  The
except handler (lines 532-542) writes status failed with the error detail
and no progress field.  A stage call either returns a response or raises;
the raise kind (timeout, transport failure, rejection, unparsable response)
does not change the control flow, so a pipeline run is a function of the
outcome of each stage. -/

/-- The kind of exception a stage call can raise. -/
inductive FailKind
  | timeout
  | unavailable
  | rejected
  | invalid
deriving DecidableEq

/-- The str(e) detail persisted for a raised exception. -/
def FailKind.msg : FailKind → String
  | .timeout => "ReadTimeout"
  | .unavailable => "ConnectError"
  | .rejected => "stage rejected the request"
  | .invalid => "Expecting value: line 1 column 1 (char 0)"

/-- Outcome of one awaited stage call: a response, or a raised exception. -/
inductive Outcome
  | ok (resp : String)
  | fail (k : FailKind)
deriving DecidableEq

/-- Whether the call returned normally. -/
def Outcome.isOk : Outcome → Bool
  | .ok _ => true
  | .fail _ => false

/-- Outcomes of the five pipeline steps of one run. -/
structure Outcomes where
  sel : Outcome
  opt : Outcome
  story : Outcome
  moderate : Outcome
  voice : Outcome

/-- Persisted job status values written by the orchestrator. -/
inductive JobStatus
  | queued
  | fetchingLocations
  | curatorRunning
  | optimizerRunning
  | storytellerRunning
  | moderatorRunning
  | voiceSynthesisRunning
  | completed
  | failed
deriving DecidableEq

/-- Position of a status along the fixed stage sequence.  The two selection
statuses are the same stage of the sequence. -/
def JobStatus.rank : JobStatus → Nat
  | .queued => 0
  | .fetchingLocations => 1
  | .curatorRunning => 1
  | .optimizerRunning => 2
  | .storytellerRunning => 3
  | .moderatorRunning => 4
  | .voiceSynthesisRunning => 5
  | .completed => 6
  | .failed => 7

/-- One JobStore write: the status always among the written fields, the
progress percentage when the write carries one (the failure write does
not), and the error detail when the write carries one. -/
structure JobWrite where
  status : JobStatus
  progress : Option Nat
  error : Option String
deriving DecidableEq

/-- The sequence of job record writes of one run of create_tour_async plus
process_tour_async, given the branch taken (explicit location ids or
curator) and the outcome of each step.  Execution stops at the first raise,
which appends the failure write. -/
def jobWrites (useSelected : Bool) (o : Outcomes) : List JobWrite :=
  ⟨.queued, some 0, none⟩ ::
  ⟨if useSelected then .fetchingLocations else .curatorRunning, some 25, none⟩ ::
  match o.sel with
  | .fail k => [⟨.failed, none, some k.msg⟩]
  | .ok _ =>
    ⟨.optimizerRunning, some 50, none⟩ ::
    match o.opt with
    | .fail k => [⟨.failed, none, some k.msg⟩]
    | .ok _ =>
      ⟨.storytellerRunning, some 75, none⟩ ::
      match o.story with
      | .fail k => [⟨.failed, none, some k.msg⟩]
      | .ok _ =>
        ⟨.moderatorRunning, some 90, none⟩ ::
        match o.moderate with
        | .fail k => [⟨.failed, none, some k.msg⟩]
        | .ok _ =>
          ⟨.voiceSynthesisRunning, some 95, none⟩ ::
          match o.voice with
          | .fail k => [⟨.failed, none, some k.msg⟩]
          | .ok _ => [⟨.completed, some 100, none⟩]

/-- The persisted statuses, in write order. -/
def statusTrace (useSelected : Bool) (o : Outcomes) : List JobStatus :=
  (jobWrites useSelected o).map JobWrite.status

/-- The persisted progress value after each write: a write without a
progress field leaves the stored value unchanged (Firestore update merges
only the given keys). -/
def progressTrace : Nat → List JobWrite → List Nat
  | _, [] => []
  | p, w :: ws =>
    let q := w.progress.getD p
    q :: progressTrace q ws

/-- A legal consecutive status transition: either forward along the fixed
stage sequence, or into failed from a non-terminal status. -/
def stepForward (s1 s2 : JobStatus) : Bool :=
  (s2 == .failed && !(s1 == .failed) && !(s1 == .completed)) ||
  (!(s2 == .failed) && s1.rank < s2.rank)

/-- Executable check that consecutive statuses of a trace only move
forward. -/
def forwardOk : List JobStatus → Bool
  | [] => true
  | [_] => true
  | s1 :: s2 :: rest => stepForward s1 s2 && forwardOk (s2 :: rest)

/-- Executable check that a numeric trace never decreases. -/
def nondecreasing : List Nat → Bool
  | [] => true
  | [_] => true
  | p :: q :: rest => decide (p ≤ q) && nondecreasing (q :: rest)

theorem forwardOk_chain' :
    ∀ l : List JobStatus, forwardOk l = true →
      List.Chain' (fun s1 s2 => stepForward s1 s2 = true) l := by
  intro l
  induction l with
  | nil => intro; exact List.chain'_nil
  | cons s1 rest ih =>
    cases rest with
    | nil => intro; simp
    | cons s2 rest2 =>
      intro h
      rw [forwardOk, Bool.and_eq_true] at h
      exact List.Chain'.cons h.1 (ih h.2)

theorem nondecreasing_chain' :
    ∀ l : List Nat, nondecreasing l = true →
      List.Chain' (fun p q => p ≤ q) l := by
  intro l
  induction l with
  | nil => intro; exact List.chain'_nil
  | cons p rest ih =>
    cases rest with
    | nil => intro; simp
    | cons q rest2 =>
      intro h
      rw [nondecreasing, Bool.and_eq_true, decide_eq_true_eq] at h
      exact List.Chain'.cons h.1 (ih h.2)

/-- The persisted job record. -/
structure JobRec where
  status : JobStatus
  progress : Nat
  error : Option String
deriving DecidableEq

/-- Applying one merge write to the stored job record. -/
def applyWrite (r : JobRec) (w : JobWrite) : JobRec :=
  { status := w.status,
    progress := w.progress.getD r.progress,
    error := match w.error with
      | some e => some e
      | none => r.error }

/-- The job record after a full run. -/
def finalJob (useSelected : Bool) (o : Outcomes) : JobRec :=
  (jobWrites useSelected o).foldl applyWrite ⟨.queued, 0, none⟩

/-- C1: for every branch and every combination of stage outcomes, the
persisted job status only moves forward: each consecutive pair of JobStore
writes either advances along the fixed stage sequence queued,
fetching/curator, optimizer, storyteller, moderator, voice synthesis,
completed, or enters failed from a non-terminal status; and the persisted
progress percentage is monotonically non-decreasing over the whole sequence
of writes (the failure write carries no progress field and so never lowers
the stored value). -/
theorem C1_status_progress_monotone (useSelected : Bool) (o : Outcomes) :
    List.Chain' (fun s1 s2 => stepForward s1 s2 = true)
      (statusTrace useSelected o) ∧
    List.Pairwise (fun p q => p ≤ q) (progressTrace 0 (jobWrites useSelected o)) := by
  obtain ⟨s, op, st, m, v⟩ := o
  refine ⟨forwardOk_chain' _ ?_,
    List.chain'_iff_pairwise.mp (nondecreasing_chain' _ ?_)⟩ <;>
    cases useSelected <;> cases s <;> cases op <;> cases st <;> cases m <;>
      cases v <;>
      · dsimp only [statusTrace, jobWrites, progressTrace, List.map,
          JobWrite.status, Option.getD]
        decide

/-- The persisted tour record fields written by process_tour_async.  Each
tour_ref.update merges only the listed keys into the stored record. -/
structure TourRec where
  status : String
  optimized : Bool
  optimizerResult : Option String
  storiesGenerated : Bool
  storytellerResult : Option String
  moderated : Bool
  moderatorResult : Option String
  voiceSynthesisCompleted : Bool
  voiceSynthesisResult : Option String
deriving DecidableEq

/-- The tour record as created after the selection step (tour_ref.set with
status created and none of the stage result fields). -/
def initialTour : TourRec :=
  ⟨"created", false, none, false, none, false, none, false, none⟩

/-- The tour record at the end of a run: none when the run failed before
the tour was created, otherwise the creation record with each completed
stage result merged in.  The except handler writes only to the job record,
so a failure leaves the tour record exactly as the last successful stage
left it. -/
def finalTour (o : Outcomes) : Option TourRec :=
  match o.sel with
  | .fail _ => none
  | .ok _ =>
    match o.opt with
    | .fail _ => some initialTour
    | .ok r2 =>
      let t1 := { initialTour with optimized := true, optimizerResult := some r2 }
      match o.story with
      | .fail _ => some t1
      | .ok r3 =>
        let t2 := { t1 with storiesGenerated := true, storytellerResult := some r3 }
        match o.moderate with
        | .fail _ => some t2
        | .ok r4 =>
          let t3 := { t2 with status := "approved", moderated := true,
                              moderatorResult := some r4 }
          match o.voice with
          | .fail _ => some t3
          | .ok r5 => some { t3 with status := "completed",
                                     voiceSynthesisCompleted := true,
                                     voiceSynthesisResult := some r5 }

/-- C2: whenever the routing stage completed (its response was merged into
the tour record) and a later stage (narration, review or synthesis) raises,
the job ends in status failed with an error detail attached, and the
persisted tour record still carries the route result exactly as written
after the routing stage: the failure-path write touches only the job
record, no field of the already persisted stage results. -/
theorem C2_route_preserved_on_late_failure (useSelected : Bool) (o : Outcomes)
    (r : String) (hsel : o.sel.isOk = true) (hopt : o.opt = Outcome.ok r)
    (hlate : (o.story.isOk && o.moderate.isOk && o.voice.isOk) = false) :
    (finalJob useSelected o).status = JobStatus.failed ∧
    (finalJob useSelected o).error.isSome = true ∧
    ∃ t, finalTour o = some t ∧ t.optimizerResult = some r ∧
      t.optimized = true := by
  obtain ⟨os, op, ost, om, ov⟩ := o
  cases os with
  | fail k => simp [Outcome.isOk] at hsel
  | ok rs =>
    subst hopt
    cases ost with
    | fail k =>
      cases om <;> cases ov <;>
        (refine ⟨?_, ?_, ?_⟩ <;> cases useSelected <;>
          simp [finalJob, jobWrites, applyWrite, finalTour, initialTour])
    | ok r3 =>
      cases om with
      | fail k =>
        cases ov <;>
          (refine ⟨?_, ?_, ?_⟩ <;> cases useSelected <;>
            simp [finalJob, jobWrites, applyWrite, finalTour, initialTour])
      | ok r4 =>
        cases ov with
        | fail k =>
          refine ⟨?_, ?_, ?_⟩ <;> cases useSelected <;>
            simp [finalJob, jobWrites, applyWrite, finalTour, initialTour]
        | ok r5 => simp [Outcome.isOk] at hlate

/-- A run whose narration stage raised Rejected after routing succeeded. -/
def rejectedAfterRouting : Outcomes :=
  ⟨Outcome.ok "curated", Outcome.ok "optimized route", Outcome.fail .rejected,
    Outcome.ok "moderated", Outcome.ok "audio"⟩

/-- Witness for C2 at a concrete run: narration rejected after routing. -/
theorem C2_route_preserved_witness :
    rejectedAfterRouting.sel.isOk = true ∧
    rejectedAfterRouting.opt = Outcome.ok "optimized route" ∧
    (rejectedAfterRouting.story.isOk && rejectedAfterRouting.moderate.isOk &&
      rejectedAfterRouting.voice.isOk) = false ∧
    ((finalJob false rejectedAfterRouting).status = JobStatus.failed ∧
      (finalJob false rejectedAfterRouting).error.isSome = true ∧
      ∃ t, finalTour rejectedAfterRouting = some t ∧
        t.optimizerResult = some "optimized route" ∧ t.optimized = true) :=
  ⟨rfl, rfl, rfl,
    C2_route_preserved_on_late_failure false rejectedAfterRouting
      "optimized route" rfl rfl rfl⟩

/-! ## Stage invocation counts: the retry question -/

/-- The five orchestration steps. -/
inductive StageId
  | selection
  | optimizer
  | storyteller
  | moderator
  | voiceSynthesis
deriving DecidableEq

/-- Order of the steps in the pipeline. -/
def StageId.idx : StageId → Nat
  | .selection => 0
  | .optimizer => 1
  | .storyteller => 2
  | .moderator => 3
  | .voiceSynthesis => 4

/-- How many times one run of process_tour_async performs each step: the
body is straight-line code inside a single try block, so a step runs exactly
once when every earlier step returned normally and not at all otherwise;
there is no retry loop around any stage call. -/
def invocations (o : Outcomes) : StageId → Nat
  | .selection => 1
  | .optimizer => if o.sel.isOk then 1 else 0
  | .storyteller => if o.sel.isOk && o.opt.isOk then 1 else 0
  | .moderator => if o.sel.isOk && o.opt.isOk && o.story.isOk then 1 else 0
  | .voiceSynthesis =>
    if o.sel.isOk && o.opt.isOk && o.story.isOk && o.moderate.isOk then 1 else 0

/-- The first step of a run that raises, with the kind it raised. -/
def firstFailure (o : Outcomes) : Option (StageId × FailKind) :=
  match o.sel with
  | .fail k => some (.selection, k)
  | .ok _ =>
    match o.opt with
    | .fail k => some (.optimizer, k)
    | .ok _ =>
      match o.story with
      | .fail k => some (.storyteller, k)
      | .ok _ =>
        match o.moderate with
        | .fail k => some (.moderator, k)
        | .ok _ =>
          match o.voice with
          | .fail k => some (.voiceSynthesis, k)
          | .ok _ => none

/-- A run whose optimizer stage call times out. -/
def timeoutRun : Outcomes :=
  ⟨Outcome.ok "curated", Outcome.fail .timeout, Outcome.ok "stories",
    Outcome.ok "moderated", Outcome.ok "audio"⟩

/-- A run whose optimizer stage call is rejected. -/
def rejectedRun : Outcomes :=
  ⟨Outcome.ok "curated", Outcome.fail .rejected, Outcome.ok "stories",
    Outcome.ok "moderated", Outcome.ok "audio"⟩

/-- C3 counterexample: a Timeout failure is not retried.  In a run whose
optimizer call times out, the optimizer is invoked exactly once and the job
is immediately failed with the error detail, and the persisted status trace
is identical to that of a run whose optimizer call was Rejected: the code
draws no distinction between retryable and terminal failure kinds and
performs no retry with backoff before failing the job. -/
theorem C3_counterexample :
    invocations timeoutRun StageId.optimizer = 1 ∧
    (finalJob false timeoutRun).status = JobStatus.failed ∧
    (finalJob false timeoutRun).error = some FailKind.timeout.msg ∧
    invocations rejectedRun StageId.optimizer = 1 ∧
    (finalJob false rejectedRun).status = JobStatus.failed ∧
    statusTrace false timeoutRun = statusTrace false rejectedRun :=
  ⟨rfl, rfl, rfl, rfl, rfl, rfl⟩

/-- C3 amended: no failure kind is retried.  Whatever kind of failure
(Timeout, Unavailable, Rejected or Invalid) first occurs at whatever stage,
that stage is invoked exactly once, no later stage is invoked at all, and
the job immediately moves to failed with that failure detail attached. -/
theorem C3_amended_no_retry (useSelected : Bool) (o : Outcomes) (s : StageId)
    (k : FailKind) (h : firstFailure o = some (s, k)) :
    invocations o s = 1 ∧
    (∀ s2 : StageId, s.idx < s2.idx → invocations o s2 = 0) ∧
    (finalJob useSelected o).status = JobStatus.failed ∧
    (finalJob useSelected o).error = some k.msg := by
  obtain ⟨os, op, ost, om, ov⟩ := o
  cases os <;> cases op <;> cases ost <;> cases om <;> cases ov <;>
    · simp only [firstFailure] at h
      first
      | exact Option.noConfusion h
      | · simp only [Option.some.injEq, Prod.mk.injEq] at h
          obtain ⟨rfl, rfl⟩ := h
          refine ⟨rfl, ?_, ?_, ?_⟩
          · intro s2 hs2
            cases s2 <;> simp_all [invocations, Outcome.isOk, StageId.idx]
          · cases useSelected <;> rfl
          · cases useSelected <;> rfl

/-- Witness for C3 amended at the concrete timed-out run. -/
theorem C3_amended_no_retry_witness :
    firstFailure timeoutRun = some (StageId.optimizer, FailKind.timeout) ∧
    (invocations timeoutRun StageId.optimizer = 1 ∧
      (∀ s2 : StageId, StageId.optimizer.idx < s2.idx →
        invocations timeoutRun s2 = 0) ∧
      (finalJob true timeoutRun).status = JobStatus.failed ∧
      (finalJob true timeoutRun).error = some FailKind.timeout.msg) :=
  ⟨rfl, C3_amended_no_retry true timeoutRun StageId.optimizer FailKind.timeout rfl⟩

end GeoStory
